import Mathlib

/-!
Verification of the commission rules engine of the Stallion Motors sales
dashboard (source file `commission_calc.py`).

Modelling choices:
* Money amounts and rates are modelled exactly over `ℚ`.  The Python source
  uses binary floats; all properties below concern the exact decimal
  arithmetic the code is specified to perform, and every concrete value used
  in a counterexample or witness was checked to behave identically under
  Python float semantics.
* Python's `round(x, 2)` is modelled by `round2` (round to the nearest
  multiple of 1/100).  Python rounds float ties to even, but a binary float
  can never be an exact tie at two decimal places (it would need a factor of
  25 in its denominator), so the tie-breaking convention is immaterial.
* A pandas row becomes the structure `SaleRecord`; the `Date` column is kept
  as year/month/day fields and `pd.Period('M')` becomes the linearly ordered
  month index `monthKey`.
* The config dict becomes the structure `PolicyConfig`; the model-spiff dict
  becomes an association list; Python truthiness of the optional price rate
  (`None` and `0.0` are falsy) is `priceRateTruthy`.
* `compute_leaderboard`'s groupby/agg becomes an explicit group-by over the
  `(salesperson, month)` key list, and `sort_values(['Month','Revenue'],
  ascending=[False,False])` becomes `List.insertionSort` with the relation
  `lbOrder` (descending month, then descending revenue).
-/

/-- One vehicle sale row, with the columns `compute_sale_commission` and
`compute_leaderboard` read (`Date` split into year/month/day). -/
structure SaleRecord where
  sale_id : String
  year : Nat
  month : Nat
  day : Nat
  vehicle_model : String
  price : ℚ
  cost : ℚ
  profit : ℚ
  quantity : Nat
  customer_type : String
  salesperson : String
  deriving DecidableEq, Repr

/-- Calendar-month index of a sale, the embedding of
`pd.to_datetime(...).dt.to_period('M')`: linear in (year, month). -/
def monthKey (s : SaleRecord) : Nat :=
  s.year * 12 + (s.month - 1)

/-- The policy configuration dictionary (`DEFAULT_CONFIG`-shaped dict). -/
structure PolicyConfig where
  base_commission_rate_on_profit : ℚ
  base_commission_rate_on_price : Option ℚ
  returning_customer_bonus : ℚ
  per_sale_flat_spiff : ℚ
  monthly_quota_revenue : ℚ
  quota_accelerator_rate : ℚ
  tier_bonuses : List (ℚ × ℚ)
  units_target : Nat
  units_target_bonus_amount : ℚ
  model_spiffs : List (String × ℚ)
  deriving DecidableEq, Repr

/-- The module-level `DEFAULT_CONFIG` dictionary of `commission_calc.py`. -/
def DEFAULT_CONFIG : PolicyConfig where
  base_commission_rate_on_profit := 4/100
  base_commission_rate_on_price := none
  returning_customer_bonus := 75
  per_sale_flat_spiff := 0
  monthly_quota_revenue := 80000
  quota_accelerator_rate := 15/1000
  tier_bonuses := [(200000, 25/1000), (150000, 2/100), (100000, 12/1000), (50000, 6/1000)]
  units_target := 8
  units_target_bonus_amount := 500
  model_spiffs := []

/-- Python's `round(x, 2)`: round to the nearest hundredth. -/
def round2 (q : ℚ) : ℚ :=
  (round (q * 100) : ℚ) / 100

/-- Python truthiness of `cfg.get('base_commission_rate_on_price')`:
`None` and `0.0` are falsy, every other rate is truthy. -/
def priceRateTruthy (cfg : PolicyConfig) : Bool :=
  match cfg.base_commission_rate_on_price with
  | none => false
  | some r => r != 0

/-- The local `base` of `compute_sale_commission`:
`if cfg.get('base_commission_rate_on_price'): base = rate_on_price * price
 else: base = rate_on_profit * profit`. -/
def saleBase (row : SaleRecord) (cfg : PolicyConfig) : ℚ :=
  if priceRateTruthy cfg then cfg.base_commission_rate_on_price.getD 0 * row.price
  else cfg.base_commission_rate_on_profit * row.profit

/-- The local `spiff`: model spiff looked up in the `model_spiffs` dict
(default 0) plus the flat per-sale spiff. -/
def saleSpiff (row : SaleRecord) (cfg : PolicyConfig) : ℚ :=
  (cfg.model_spiffs.lookup row.vehicle_model).getD 0 + cfg.per_sale_flat_spiff

/-- The local `returning`: the flat bonus iff `Customer_Type == 'Returning'`. -/
def saleReturning (row : SaleRecord) (cfg : PolicyConfig) : ℚ :=
  if row.customer_type = "Returning" then cfg.returning_customer_bonus else 0

/-- The per-sale output dict of `compute_sale_commission`. -/
structure SaleCommissionBreakdown where
  Base_Commission : ℚ
  Spiff : ℚ
  Returning_Bonus : ℚ
  Total_Sale_Level : ℚ
  deriving DecidableEq, Repr

/-- `compute_sale_commission(row, config)`: each emitted field is rounded to
2 decimals; `Total_Sale_Level` rounds the sum `base + spiff + returning` of
the unrounded locals. -/
def compute_sale_commission (row : SaleRecord) (cfg : PolicyConfig) : SaleCommissionBreakdown where
  Base_Commission := round2 (saleBase row cfg)
  Spiff := round2 (saleSpiff row cfg)
  Returning_Bonus := round2 (saleReturning row cfg)
  Total_Sale_Level := round2 (saleBase row cfg + saleSpiff row cfg + saleReturning row cfg)

/-- `_apply_tier_bonus(revenue, cfg)`: scan the configured tier list in
order, return `revenue * pct` at the first threshold with
`revenue >= threshold`, else 0. -/
def apply_tier_bonus (revenue : ℚ) : List (ℚ × ℚ) → ℚ
  | [] => 0
  | (threshold, pct) :: rest =>
      if revenue ≥ threshold then revenue * pct else apply_tier_bonus revenue rest

/-- The quota-accelerator local function `_quota_acc` of `compute_leaderboard`. -/
def quota_acc (cfg : PolicyConfig) (r : ℚ) : ℚ :=
  if r > cfg.monthly_quota_revenue then
    round2 ((r - cfg.monthly_quota_revenue) * cfg.quota_accelerator_rate)
  else 0

/-- One row of the leaderboard DataFrame returned by `compute_leaderboard`. -/
structure MonthlyBreakdown where
  Salesperson : String
  Month : Nat
  Revenue : ℚ
  Units : Nat
  Profit : ℚ
  Sale_Base_Com : ℚ
  Sale_Spiffs : ℚ
  Sale_ReturningBonuses : ℚ
  Tier_Bonus : ℚ
  Quota_Accelerator : ℚ
  Unit_Target_Bonus : ℚ
  Base_Commission : ℚ
  Total_Commission : ℚ
  deriving DecidableEq, Repr

/-- Group keys of `dfc.groupby(['Salesperson','Month'])`, in order of first
appearance (the key order never affects any claim: the output is re-sorted). -/
def keysOf (sales : List SaleRecord) : List (String × Nat) :=
  sales.foldl
    (fun acc s =>
      let k := (s.salesperson, monthKey s)
      if k ∈ acc then acc else acc ++ [k]) []

/-- The rows of one `(salesperson, month)` group. -/
def groupRows (sales : List SaleRecord) (k : String × Nat) : List SaleRecord :=
  sales.filter (fun s => s.salesperson = k.1 ∧ monthKey s = k.2)

/-- One aggregated leaderboard row: the groupby sums followed by the
`Tier_Bonus`, `Quota_Accelerator`, `Unit_Target_Bonus`, `Base_Commission`
and `Total_Commission` column assignments of `compute_leaderboard`. -/
def mkBreakdown (cfg : PolicyConfig) (sales : List SaleRecord) (k : String × Nat) :
    MonthlyBreakdown :=
  let rows := groupRows sales k
  let comps := rows.map (fun r => compute_sale_commission r cfg)
  let revenue := (rows.map (fun r => r.price)).sum
  let units := (rows.map (fun r => r.quantity)).sum
  let profitSum := (rows.map (fun r => r.profit)).sum
  let saleBaseSum := (comps.map (fun c => c.Base_Commission)).sum
  let saleSpiffSum := (comps.map (fun c => c.Spiff)).sum
  let saleReturningSum := (comps.map (fun c => c.Returning_Bonus)).sum
  let tier := round2 (apply_tier_bonus revenue cfg.tier_bonuses)
  let qacc := quota_acc cfg revenue
  let unitBonus := if units ≥ cfg.units_target then cfg.units_target_bonus_amount else 0
  let baseCom := saleBaseSum + saleSpiffSum + saleReturningSum
  { Salesperson := k.1
    Month := k.2
    Revenue := revenue
    Units := units
    Profit := profitSum
    Sale_Base_Com := saleBaseSum
    Sale_Spiffs := saleSpiffSum
    Sale_ReturningBonuses := saleReturningSum
    Tier_Bonus := tier
    Quota_Accelerator := qacc
    Unit_Target_Bonus := unitBonus
    Base_Commission := baseCom
    Total_Commission := round2 (baseCom + tier + qacc + unitBonus) }

/-- The aggregated (unfiltered, unsorted) leaderboard rows. -/
def aggRows (sales : List SaleRecord) (cfg : PolicyConfig) : List MonthlyBreakdown :=
  (keysOf sales).map (mkBreakdown cfg sales)

/-- The optional `target_month` filter (`agg[agg['Month'] == target_month]`). -/
def monthFilter (target_month : Option Nat) (l : List MonthlyBreakdown) :
    List MonthlyBreakdown :=
  match target_month with
  | some m => l.filter (fun b => b.Month = m)
  | none => l

/-- The sort order of `agg.sort_values(['Month','Revenue'],
ascending=[False,False])`: descending month, then descending revenue. -/
def lbOrder (a b : MonthlyBreakdown) : Prop :=
  b.Month < a.Month ∨ (a.Month = b.Month ∧ b.Revenue ≤ a.Revenue)

instance : DecidableRel lbOrder := fun a b => by
  unfold lbOrder
  infer_instance

instance : IsTotal MonthlyBreakdown lbOrder := by
  constructor
  intro a b
  unfold lbOrder
  rcases Nat.lt_trichotomy a.Month b.Month with h | h | h
  · exact Or.inr (Or.inl h)
  · rcases le_total b.Revenue a.Revenue with hr | hr
    · exact Or.inl (Or.inr ⟨h, hr⟩)
    · exact Or.inr (Or.inr ⟨h.symm, hr⟩)
  · exact Or.inl (Or.inl h)

instance : IsTrans MonthlyBreakdown lbOrder := by
  constructor
  intro a b c hab hbc
  unfold lbOrder at *
  rcases hab with h1 | ⟨h1, r1⟩
  · rcases hbc with h2 | ⟨h2, r2⟩
    · exact Or.inl (h2.trans h1)
    · exact Or.inl (h2 ▸ h1)
  · rcases hbc with h2 | ⟨h2, r2⟩
    · exact Or.inl (h1 ▸ h2)
    · exact Or.inr ⟨h1.trans h2, r2.trans r1⟩

/-- `compute_leaderboard(df, target_month, config)`: per-sale commissions,
monthly grouping and aggregation, bonus columns, optional month filter,
then the descending (month, revenue) sort. -/
def compute_leaderboard (sales : List SaleRecord) (target_month : Option Nat := none)
    (cfg : PolicyConfig := DEFAULT_CONFIG) : List MonthlyBreakdown :=
  List.insertionSort lbOrder (monthFilter target_month (aggRows sales cfg))

/-- `compute_leaderboard` with its empty-input error path made explicit.
On a 0-row frame, `dfc.apply(lambda r: pd.Series(...), axis=1)` goes through
pandas `apply_empty_result` and returns the original frame, so the four
commission columns are never created; the following
`groupby(['Salesperson','Month'])` named aggregation then raises
(ValueError on the duplicated grouper columns produced by the concat, or
KeyError on the absent `Base_Commission`/`Spiff`/`Returning_Bonus`
columns).  For non-empty input the pipeline runs to completion and
produces exactly `compute_leaderboard`. -/
def compute_leaderboard_checked (sales : List SaleRecord) (target_month : Option Nat := none)
    (cfg : PolicyConfig := DEFAULT_CONFIG) : Except String (List MonthlyBreakdown) :=
  match sales with
  | [] => Except.error "empty input: commission columns absent, groupby aggregation raises"
  | _ => Except.ok (compute_leaderboard sales target_month cfg)

/-! Concrete data used by counterexamples and witnesses.  `saleA` is the
demo sale of the `__main__` block of `commission_calc.py` (scenario A of
the spec); the others vary single fields. -/

/-- The demo sale S1: price 50000, profit 12000, new customer. -/
def saleA : SaleRecord where
  sale_id := "S1"
  year := 2025
  month := 10
  day := 5
  vehicle_model := "Toyota RAV4"
  price := 50000
  cost := 38000
  profit := 12000
  quantity := 1
  customer_type := "New"
  salesperson := "Aisha Bello"

/-- A config in which BOTH base rates are specified (non-null): profit rate
4% (the default) and price rate 5%. -/
def cfg1 : PolicyConfig :=
  { DEFAULT_CONFIG with base_commission_rate_on_price := some (5/100) }

/-- A sale with price 100 and profit 50, so the two base modes disagree. -/
def row1 : SaleRecord :=
  { saleA with price := 100, profit := 50 }

/-- A config with a flat per-sale spiff of 0.004. -/
def cfg2 : PolicyConfig :=
  { DEFAULT_CONFIG with per_sale_flat_spiff := 1/250 }

/-- A sale with profit 0.1, so the unrounded base is 0.004. -/
def row2 : SaleRecord :=
  { saleA with profit := 1/10 }

/-- A config whose price rate is present but exactly zero (falsy in Python). -/
def cfg10 : PolicyConfig :=
  { DEFAULT_CONFIG with base_commission_rate_on_price := some 0 }

/-- A sale with monthly revenue 90000, above the 80000 default quota. -/
def saleD : SaleRecord :=
  { saleA with price := 90000, salesperson := "Dana" }

/-- The single leaderboard row produced from `[saleD]` under the default config. -/
def lbD : MonthlyBreakdown :=
  mkBreakdown DEFAULT_CONFIG [saleD] (saleD.salesperson, monthKey saleD)

/-- A sale of 8 units (exactly the default unit target). -/
def saleE8 : SaleRecord :=
  { saleA with quantity := 8, salesperson := "Ed" }

/-- The single leaderboard row produced from `[saleE8]` under the default config. -/
def lbE8 : MonthlyBreakdown :=
  mkBreakdown DEFAULT_CONFIG [saleE8] (saleE8.salesperson, monthKey saleE8)

/-- A sale of 7 units (one below the default unit target). -/
def saleE7 : SaleRecord :=
  { saleA with quantity := 7, salesperson := "Fay" }

/-- The single leaderboard row produced from `[saleE7]` under the default config. -/
def lbE7 : MonthlyBreakdown :=
  mkBreakdown DEFAULT_CONFIG [saleE7] (saleE7.salesperson, monthKey saleE7)

/-! Helper lemmas shared by the claim theorems. -/

/-- Projection of the tier-bonus column out of one aggregated row. -/
theorem mkBreakdown_tier (cfg : PolicyConfig) (sales : List SaleRecord) (k : String × Nat) :
    (mkBreakdown cfg sales k).Tier_Bonus =
      round2 (apply_tier_bonus (mkBreakdown cfg sales k).Revenue cfg.tier_bonuses) := rfl

/-- Projection of the quota-accelerator column out of one aggregated row. -/
theorem mkBreakdown_quota (cfg : PolicyConfig) (sales : List SaleRecord) (k : String × Nat) :
    (mkBreakdown cfg sales k).Quota_Accelerator =
      quota_acc cfg (mkBreakdown cfg sales k).Revenue := rfl

/-- Projection of the unit-target column out of one aggregated row. -/
theorem mkBreakdown_unit (cfg : PolicyConfig) (sales : List SaleRecord) (k : String × Nat) :
    (mkBreakdown cfg sales k).Unit_Target_Bonus =
      (if (mkBreakdown cfg sales k).Units ≥ cfg.units_target then
        cfg.units_target_bonus_amount else 0) := rfl

/-- Projection of the two total columns out of one aggregated row. -/
theorem mkBreakdown_totals (cfg : PolicyConfig) (sales : List SaleRecord) (k : String × Nat) :
    (mkBreakdown cfg sales k).Base_Commission =
        (mkBreakdown cfg sales k).Sale_Base_Com + (mkBreakdown cfg sales k).Sale_Spiffs +
          (mkBreakdown cfg sales k).Sale_ReturningBonuses ∧
    (mkBreakdown cfg sales k).Total_Commission =
        round2 ((mkBreakdown cfg sales k).Base_Commission +
          (mkBreakdown cfg sales k).Tier_Bonus + (mkBreakdown cfg sales k).Quota_Accelerator +
          (mkBreakdown cfg sales k).Unit_Target_Bonus) := ⟨rfl, rfl⟩

/-- Every row of the returned leaderboard is one of the aggregated group rows. -/
theorem exists_key_of_mem_leaderboard {sales : List SaleRecord} {tm : Option Nat}
    {cfg : PolicyConfig} {b : MonthlyBreakdown}
    (hb : b ∈ compute_leaderboard sales tm cfg) :
    ∃ k ∈ keysOf sales, b = mkBreakdown cfg sales k := by
  have h1 : b ∈ monthFilter tm (aggRows sales cfg) :=
    ((List.perm_insertionSort lbOrder (monthFilter tm (aggRows sales cfg))).mem_iff).mp hb
  have h2 : b ∈ aggRows sales cfg := by
    cases tm with
    | none => exact h1
    | some m => exact (List.mem_filter.mp h1).1
  obtain ⟨k, hk, hEq⟩ := List.mem_map.mp h2
  exact ⟨k, hk, hEq.symm⟩

/-- A one-sale leaderboard is the single aggregated row of that sale. -/
theorem single_leaderboard (s : SaleRecord) (cfg : PolicyConfig) :
    compute_leaderboard [s] none cfg =
      [mkBreakdown cfg [s] (s.salesperson, monthKey s)] := rfl

/-- Membership of the concrete row `lbD` in its one-sale leaderboard. -/
theorem lbD_mem : lbD ∈ compute_leaderboard [saleD] none DEFAULT_CONFIG := by
  rw [single_leaderboard]
  exact List.mem_singleton.mpr rfl

/-- Membership of the concrete row `lbE8` in its one-sale leaderboard. -/
theorem lbE8_mem : lbE8 ∈ compute_leaderboard [saleE8] none DEFAULT_CONFIG := by
  rw [single_leaderboard]
  exact List.mem_singleton.mpr rfl

/-- Membership of the concrete row `lbE7` in its one-sale leaderboard. -/
theorem lbE7_mem : lbE7 ∈ compute_leaderboard [saleE7] none DEFAULT_CONFIG := by
  rw [single_leaderboard]
  exact List.mem_singleton.mpr rfl

/-! Claim theorems. -/

/-- C3: code bug.  The claim (and spec section 7) requires that zero sale
records produce an empty result and no error, but the real pipeline raises
on a 0-row frame: `df.apply` returns the original frame unchanged (pandas
`apply_empty_result`), the commission columns therefore never exist, and
the groupby named aggregation raises.  Evaluating the checked builder at
the failing input (the empty sale list, any configuration and month
filter) yields that error, not the empty result the claim requires. -/
theorem C3_empty_input_raises (target_month : Option Nat) (cfg : PolicyConfig) :
    compute_leaderboard_checked [] target_month cfg =
      Except.error "empty input: commission columns absent, groupby aggregation raises" :=
  rfl

/-- C9: `compute_leaderboard` is deterministic: two invocations on the same
immutable inputs produce identical outputs, field for field.  In this
embedding the builder is a pure total function of its arguments, so equal
inputs give definitionally equal outputs. -/
theorem C9_deterministic (sales : List SaleRecord) (target_month : Option Nat)
    (cfg : PolicyConfig) :
    compute_leaderboard sales target_month cfg =
      compute_leaderboard sales target_month cfg := rfl

/-- C8: the sequence returned by `compute_leaderboard` is sorted descending
by month and, within each month, descending by revenue (`lbOrder`); proved
for every collection, in particular every non-empty one. -/
theorem C8_sorted (sales : List SaleRecord) (target_month : Option Nat)
    (cfg : PolicyConfig) :
    List.Sorted lbOrder (compute_leaderboard sales target_month cfg) :=
  List.sorted_insertionSort lbOrder (monthFilter target_month (aggRows sales cfg))

/-- C2 counterexample: with a per-sale flat spiff of 0.004 and a profit of
0.1 (unrounded base 0.004, spiff 0.004, returning 0), the emitted
`Total_Sale_Level` is 0.01 while the sum of the independently-rounded
`Base_Commission`, `Spiff` and `Returning_Bonus` fields is 0, so the
claimed exact equality fails. -/
theorem C2_counterexample :
    (compute_sale_commission row2 cfg2).Total_Sale_Level = 1/100 ∧
    (compute_sale_commission row2 cfg2).Base_Commission +
        (compute_sale_commission row2 cfg2).Spiff +
        (compute_sale_commission row2 cfg2).Returning_Bonus = 0 ∧
    ((1 : ℚ)/100) ≠ 0 := by
  refine ⟨?_, ?_, by norm_num⟩ <;>
  · simp [compute_sale_commission, saleBase, saleSpiff, saleReturning, priceRateTruthy,
      row2, cfg2, saleA, DEFAULT_CONFIG]
    norm_num [round2, round_eq]

/-- C2 amended: `Total_Sale_Level` is `round2` applied to the sum of the
UNROUNDED base, spiff and returning components (the code rounds the raw sum
`base + spiff + returning`), and each emitted component field is the same
component rounded independently; the total may therefore differ from the
sum of the three rounded fields. -/
theorem C2_amended (row : SaleRecord) (cfg : PolicyConfig) :
    (compute_sale_commission row cfg).Total_Sale_Level =
        round2 (saleBase row cfg + saleSpiff row cfg + saleReturning row cfg) ∧
    (compute_sale_commission row cfg).Base_Commission = round2 (saleBase row cfg) ∧
    (compute_sale_commission row cfg).Spiff = round2 (saleSpiff row cfg) ∧
    (compute_sale_commission row cfg).Returning_Bonus = round2 (saleReturning row cfg) :=
  ⟨rfl, rfl, rfl, rfl⟩

/-- C1 counterexample: with both rates specified (profit rate 4%, price
rate 5%) and a sale of price 100 / profit 50, the code emits base
commission 5 = 5% of the price, not 2 = 4% of the profit: the PRICE-based
mode takes precedence, contrary to the claim. -/
theorem C1_counterexample :
    (compute_sale_commission row1 cfg1).Base_Commission = 5 ∧
    round2 (cfg1.base_commission_rate_on_profit * row1.profit) = 2 ∧
    (5 : ℚ) ≠ 2 := by
  refine ⟨?_, ?_, by norm_num⟩
  · simp [compute_sale_commission, saleBase, saleSpiff, saleReturning, priceRateTruthy,
      row1, cfg1, saleA, DEFAULT_CONFIG]
    norm_num [round2, round_eq]
  · norm_num [row1, cfg1, saleA, DEFAULT_CONFIG, round2, round_eq]

/-- C1 amended: when the policy specifies a price-based rate that is
non-null and nonzero (Python-truthy), `compute_sale_commission` computes
the base commission as the price-based rate times the sale's price — the
price-based mode silently takes precedence over the profit-based one; the
profit-based rate is used only when the price rate is absent or falsy. -/
theorem C1_amended (row : SaleRecord) (cfg : PolicyConfig) (r : ℚ)
    (hr : cfg.base_commission_rate_on_price = some r) (h0 : r ≠ 0) :
    (compute_sale_commission row cfg).Base_Commission = round2 (r * row.price) := by
  simp [compute_sale_commission, saleBase, priceRateTruthy, hr, h0]

/-- C1 amended witness: the amended theorem applied to the concrete config
`cfg1` (price rate 5%) and sale `row1` (price 100). -/
theorem C1_amended_witness :
    cfg1.base_commission_rate_on_price = some (5/100) ∧ ((5 : ℚ)/100) ≠ 0 ∧
    (compute_sale_commission row1 cfg1).Base_Commission = round2 ((5/100) * row1.price) :=
  ⟨rfl, by norm_num, C1_amended row1 cfg1 (5/100) rfl (by norm_num)⟩

/-- C10: when the configured price-based rate is present but exactly zero
(or absent entirely; both are Python-falsy), `compute_sale_commission`
treats the price-based mode as unset and computes the base commission from
the profit-based rate times profit, so a zero price rate never yields a
rate-times-price base commission. -/
theorem C10_falsy_price_rate (row : SaleRecord) (cfg : PolicyConfig)
    (h : cfg.base_commission_rate_on_price = some 0 ∨
      cfg.base_commission_rate_on_price = none) :
    (compute_sale_commission row cfg).Base_Commission =
      round2 (cfg.base_commission_rate_on_profit * row.profit) := by
  rcases h with h | h <;> simp [compute_sale_commission, saleBase, priceRateTruthy, h]

/-- C10 witness: the theorem applied to the concrete config `cfg10`
(price rate exactly 0) and the demo sale `saleA`. -/
theorem C10_falsy_price_rate_witness :
    cfg10.base_commission_rate_on_price = some 0 ∧
    (compute_sale_commission saleA cfg10).Base_Commission =
      round2 (cfg10.base_commission_rate_on_profit * saleA.profit) :=
  ⟨rfl, C10_falsy_price_rate saleA cfg10 (Or.inl rfl)⟩

/-- Scanning the tier list skips every leading pair whose threshold the
revenue does not meet. -/
theorem apply_tier_bonus_append (r : ℚ) :
    ∀ (pre tail : List (ℚ × ℚ)), (∀ p ∈ pre, r < p.1) →
      apply_tier_bonus r (pre ++ tail) = apply_tier_bonus r tail
  | [], _, _ => rfl
  | (th, pct) :: ps, tail, h => by
    rw [List.cons_append]
    show (if r ≥ th then r * pct else apply_tier_bonus r (ps ++ tail)) = _
    rw [if_neg (not_le.mpr (h (th, pct) (List.mem_cons_self _ _)))]
    exact apply_tier_bonus_append r ps tail fun q hq => h q (List.mem_cons_of_mem _ hq)

/-- C4: the tier bonus of every leaderboard row is the 2-decimal rounding of
`_apply_tier_bonus` on the row's revenue, and `_apply_tier_bonus` pays
`revenue * pct` for the FIRST pair in list order whose threshold the revenue
meets or exceeds (boundary inclusive, earlier pairs all unmet), and 0 when
no threshold is met — exactly one tier, never stacked. -/
theorem C4_tier_bonus :
    (∀ (sales : List SaleRecord) (tm : Option Nat) (cfg : PolicyConfig)
        (b : MonthlyBreakdown), b ∈ compute_leaderboard sales tm cfg →
        b.Tier_Bonus = round2 (apply_tier_bonus b.Revenue cfg.tier_bonuses)) ∧
    (∀ (r : ℚ) (pre post : List (ℚ × ℚ)) (t : ℚ × ℚ),
        (∀ p ∈ pre, r < p.1) → t.1 ≤ r →
        apply_tier_bonus r (pre ++ t :: post) = r * t.2) ∧
    (∀ (r : ℚ) (tiers : List (ℚ × ℚ)), (∀ p ∈ tiers, r < p.1) →
        apply_tier_bonus r tiers = 0) := by
  refine ⟨?_, ?_, ?_⟩
  · intro sales tm cfg b hb
    obtain ⟨k, hk, rfl⟩ := exists_key_of_mem_leaderboard hb
    exact mkBreakdown_tier cfg sales k
  · intro r pre post t hpre ht
    rw [apply_tier_bonus_append r pre (t :: post) hpre]
    obtain ⟨th, pct⟩ := t
    show (if r ≥ th then r * pct else apply_tier_bonus r post) = _
    rw [if_pos ht]
  · intro r tiers h
    rw [← List.append_nil tiers, apply_tier_bonus_append r tiers [] h]
    rfl

/-- C4 witness: under the default tier list, revenue 160000 misses the
200000 tier and meets the 150000 tier first, earning 160000 * 2%. -/
theorem C4_tier_bonus_witness :
    (∀ p ∈ [((200000 : ℚ), (25 : ℚ)/1000)], (160000 : ℚ) < p.1) ∧
    ((150000 : ℚ) ≤ (160000 : ℚ)) ∧
    apply_tier_bonus 160000 DEFAULT_CONFIG.tier_bonuses = 160000 * (2/100) := by
  refine ⟨by decide, by decide, ?_⟩
  have h := C4_tier_bonus.2.1 160000 [(200000, 25/1000)]
      [(100000, 12/1000), (50000, 6/1000)] (150000, 2/100)
      (by decide) (by decide)
  simpa [DEFAULT_CONFIG] using h

/-- C5: the quota accelerator of every leaderboard row is the 2-decimal
rounding of `(revenue - monthly_quota_revenue) * quota_accelerator_rate`
when revenue strictly exceeds the quota, and 0 otherwise; in particular a
revenue exactly equal to the quota earns accelerator 0 (exclusive boundary). -/
theorem C5_quota_accelerator :
    (∀ (sales : List SaleRecord) (tm : Option Nat) (cfg : PolicyConfig)
        (b : MonthlyBreakdown), b ∈ compute_leaderboard sales tm cfg →
        b.Quota_Accelerator =
          if b.Revenue > cfg.monthly_quota_revenue then
            round2 ((b.Revenue - cfg.monthly_quota_revenue) * cfg.quota_accelerator_rate)
          else 0) ∧
    (∀ (sales : List SaleRecord) (tm : Option Nat) (cfg : PolicyConfig)
        (b : MonthlyBreakdown), b ∈ compute_leaderboard sales tm cfg →
        b.Revenue = cfg.monthly_quota_revenue → b.Quota_Accelerator = 0) := by
  constructor
  · intro sales tm cfg b hb
    obtain ⟨k, hk, rfl⟩ := exists_key_of_mem_leaderboard hb
    rfl
  · intro sales tm cfg b hb hrev
    obtain ⟨k, hk, rfl⟩ := exists_key_of_mem_leaderboard hb
    rw [mkBreakdown_quota, hrev]
    simp [quota_acc]

/-- C5 witness: one sale of price 90000 under the default config (quota
80000, rate 1.5%) earns accelerator (90000 - 80000) * 0.015 = 150. -/
theorem C5_quota_accelerator_witness :
    lbD ∈ compute_leaderboard [saleD] none DEFAULT_CONFIG ∧
    lbD.Revenue = 90000 ∧ DEFAULT_CONFIG.monthly_quota_revenue = 80000 ∧
    lbD.Quota_Accelerator = 150 := by
  have hrev : lbD.Revenue = 90000 := by
    norm_num [lbD, mkBreakdown, groupRows, saleD, saleA, monthKey]
  refine ⟨lbD_mem, hrev, rfl, ?_⟩
  have h := C5_quota_accelerator.1 [saleD] none DEFAULT_CONFIG lbD lbD_mem
  rw [h, hrev]
  norm_num [DEFAULT_CONFIG, round2, round_eq]

/-- C6: the unit-target bonus of every leaderboard row is the configured
flat amount when the row's total units meet or exceed the configured
threshold (boundary inclusive) and 0 otherwise — binary, never prorated. -/
theorem C6_unit_target_bonus (sales : List SaleRecord) (tm : Option Nat)
    (cfg : PolicyConfig) (b : MonthlyBreakdown)
    (hb : b ∈ compute_leaderboard sales tm cfg) :
    b.Unit_Target_Bonus =
      if b.Units ≥ cfg.units_target then cfg.units_target_bonus_amount else 0 := by
  obtain ⟨k, hk, rfl⟩ := exists_key_of_mem_leaderboard hb
  rfl

/-- C6 witness: with the default threshold of 8 units, a month of exactly 8
units earns the full flat 500 and a month of 7 units earns 0. -/
theorem C6_unit_target_bonus_witness :
    lbE8 ∈ compute_leaderboard [saleE8] none DEFAULT_CONFIG ∧
    lbE8.Units = 8 ∧ lbE8.Unit_Target_Bonus = 500 ∧
    lbE7 ∈ compute_leaderboard [saleE7] none DEFAULT_CONFIG ∧
    lbE7.Units = 7 ∧ lbE7.Unit_Target_Bonus = 0 := by
  have hu8 : lbE8.Units = 8 := rfl
  have hu7 : lbE7.Units = 7 := rfl
  refine ⟨lbE8_mem, hu8, ?_, lbE7_mem, hu7, ?_⟩
  · have h := C6_unit_target_bonus [saleE8] none DEFAULT_CONFIG lbE8 lbE8_mem
    rw [h, hu8]
    norm_num [DEFAULT_CONFIG]
  · have h := C6_unit_target_bonus [saleE7] none DEFAULT_CONFIG lbE7 lbE7_mem
    rw [h, hu7]
    norm_num [DEFAULT_CONFIG]

/-- C7: for every leaderboard row, the three sale-level columns are the
group sums of the per-sale breakdown fields, `Base_Commission` is their
sum, and `Total_Commission` is `Base_Commission + Tier_Bonus +
Quota_Accelerator + Unit_Target_Bonus` rounded to 2 decimals as the final
step. -/
theorem C7_totals (sales : List SaleRecord) (tm : Option Nat)
    (cfg : PolicyConfig) (b : MonthlyBreakdown)
    (hb : b ∈ compute_leaderboard sales tm cfg) :
    (∃ k ∈ keysOf sales,
      b.Sale_Base_Com =
        (((groupRows sales k).map (fun r => compute_sale_commission r cfg)).map
          (fun c => c.Base_Commission)).sum ∧
      b.Sale_Spiffs =
        (((groupRows sales k).map (fun r => compute_sale_commission r cfg)).map
          (fun c => c.Spiff)).sum ∧
      b.Sale_ReturningBonuses =
        (((groupRows sales k).map (fun r => compute_sale_commission r cfg)).map
          (fun c => c.Returning_Bonus)).sum) ∧
    b.Base_Commission = b.Sale_Base_Com + b.Sale_Spiffs + b.Sale_ReturningBonuses ∧
    b.Total_Commission = round2 (b.Base_Commission + b.Tier_Bonus +
      b.Quota_Accelerator + b.Unit_Target_Bonus) := by
  obtain ⟨k, hk, rfl⟩ := exists_key_of_mem_leaderboard hb
  exact ⟨⟨k, hk, rfl, rfl, rfl⟩, rfl, rfl⟩

/-- C7 witness: the totals identity instantiated on the concrete row `lbD`. -/
theorem C7_totals_witness :
    lbD ∈ compute_leaderboard [saleD] none DEFAULT_CONFIG ∧
    lbD.Base_Commission = lbD.Sale_Base_Com + lbD.Sale_Spiffs + lbD.Sale_ReturningBonuses ∧
    lbD.Total_Commission = round2 (lbD.Base_Commission + lbD.Tier_Bonus +
      lbD.Quota_Accelerator + lbD.Unit_Target_Bonus) :=
  ⟨lbD_mem, (C7_totals [saleD] none DEFAULT_CONFIG lbD lbD_mem).2⟩
